import Mathlib

/-!
Verification development for the payments backend in `src/server.js`
(`server.js` routes plus the `payments.js` handler module).  The handlers
are shallowly embedded as pure Lean functions over a model of JavaScript
runtime values; outbound provider HTTP calls are represented explicitly as
a trace, with provider responses supplied by an oracle.
-/

set_option linter.unusedVariables false
set_option maxRecDepth 100000

namespace Makeover

/-- Model of a JavaScript/JSON runtime value as received by the Express
handlers.  `nan` is the JS number `NaN`; `num` carries finite JS numbers as
exact rationals. -/
inductive JValue where
  | null
  | undefined
  | bool (b : Bool)
  | num (q : ℚ)
  | nan
  | str (s : String)
  | arr (elems : List JValue)
  | obj (fields : List (String × JValue))

/-- Truthiness of a JS value (`!v` is `!truthy v`). -/
def truthy : JValue → Bool
  | .null => false
  | .undefined => false
  | .bool b => b
  | .num q => decide (q ≠ 0)
  | .nan => false
  | .str s => s != ""
  | .arr _ => true
  | .obj _ => true

/-- First binding of a key in a JS object's field list. -/
def lookupField : List (String × JValue) → String → Option JValue
  | [], _ => none
  | (k, v) :: rest, key => if k == key then some v else lookupField rest key

/-- Property access `v[key]` when the base is known non-nullish; yields
`undefined` for absent keys and for non-object bases (mirroring JS, where
only the field names used by this server are ever accessed). -/
def jsGetD : JValue → String → JValue
  | .obj fs, key => (lookupField fs key).getD .undefined
  | _, _ => .undefined

/-- Property access `v[key]` that throws a `TypeError` on a nullish base,
like JS member access does. -/
def jsGet : JValue → String → Except String JValue
  | .null, _ => .error "TypeError"
  | .undefined, _ => .error "TypeError"
  | v, key => .ok (jsGetD v key)

/-- Destructuring with a default, as in `const { currency = 'INR' } = req.body`:
the default applies exactly when the field is `undefined`. -/
def jsGetDefault (body : JValue) (key : String) (d : JValue) : JValue :=
  match jsGetD body key with
  | .undefined => d
  | v => v

/-- Decimal digit test on characters. -/
def isDigitCh (c : Char) : Bool := 48 ≤ c.toNat && c.toNat ≤ 57

/-- Numeric value of a digit string (most significant first). -/
def digitsToNat (l : List Char) : Nat :=
  l.foldl (fun a c => a * 10 + (c.toNat - 48)) 0

/-- Parse an unsigned plain decimal literal (`"12"`, `"12.5"`, `".5"`,
`"12."`). -/
def parseDecCore (l : List Char) : Option ℚ :=
  let ip := l.takeWhile isDigitCh
  let rest := l.dropWhile isDigitCh
  match rest with
  | [] => if ip = [] then none else some (digitsToNat ip)
  | '.' :: fp =>
      if fp.all isDigitCh && (ip ≠ [] || fp ≠ []) then
        some ((digitsToNat ip : ℚ) + (digitsToNat fp : ℚ) / (10 : ℚ) ^ fp.length)
      else none
  | _ => none

/-- Model of JS `Number()` coercion on strings, restricted to plain signed
decimal literals (the only string shapes this server's clients send);
the empty string coerces to `0`, anything unparsable to `NaN` (`none`). -/
def parseDecimal (s : String) : Option ℚ :=
  match s.toList with
  | [] => some 0
  | '-' :: rest => (parseDecCore rest).map (fun q => -q)
  | '+' :: rest => parseDecCore rest
  | l => parseDecCore l

/-- Model of JS `Number()` coercion; `none` is `NaN`.  Arrays and objects
are approximated: `[]` coerces to `0`, other composites to `NaN`. -/
def numCoerce : JValue → Option ℚ
  | .null => some 0
  | .undefined => none
  | .bool b => some (if b then 1 else 0)
  | .num q => some q
  | .nan => none
  | .str s => parseDecimal s
  | .arr [] => some 0
  | .arr (_ :: _) => none
  | .obj _ => none

/-- The amount guard shared by all three create handlers:
`!amount || isNaN(amount) || Number(amount) <= 0`. -/
def invalidAmount (v : JValue) : Bool :=
  !truthy v || (numCoerce v).isNone ||
    (match numCoerce v with
     | some q => decide (q ≤ 0)
     | none => false)

/-- JS `Math.round`: round half toward positive infinity. -/
def mathRound (q : ℚ) : ℤ := (q + 1/2).floor

/-- Fractional decimal digits of a rational in `[0,1)`, with fuel bounding
the number of emitted digits. -/
def fracDigits : Nat → ℚ → List Char
  | 0, _ => []
  | fuel + 1, q =>
      if q = 0 then []
      else
        let q10 := q * 10
        Char.ofNat (48 + q10.floor.toNat % 10) :: fracDigits fuel (q10 - q10.floor)

/-- Plain decimal rendering of a nonnegative rational, as JS `String()`
prints finite decimals. -/
def ratDecStringNonneg (q : ℚ) : String :=
  let ip := q.floor.toNat
  let ds := fracDigits 32 (q - q.floor)
  if ds = [] then toString ip else toString ip ++ "." ++ String.mk ds

/-- Model of JS number-to-string conversion (`String(x)`, template
literals) for the finite decimals this server handles. -/
def ratDecString (q : ℚ) : String :=
  if q < 0 then "-" ++ ratDecStringNonneg (-q) else ratDecStringNonneg q

/-- String conversion of a non-composite JS value. -/
def jsScalarStr : JValue → String
  | .null => "null"
  | .undefined => "undefined"
  | .bool b => if b then "true" else "false"
  | .num q => ratDecString q
  | .nan => "NaN"
  | .str s => s
  | .arr _ => ""
  | .obj _ => "[object Object]"

/-- Model of JS string coercion (template literal or `String()`); array
contents are joined one level deep with commas. -/
def jsTemplate : JValue → String
  | .arr l =>
      String.intercalate "," (l.map fun v =>
        match v with
        | .null => ""
        | .undefined => ""
        | w => jsScalarStr w)
  | v => jsScalarStr v

/-- Element conversion used by `Array.prototype.join`: `null` and
`undefined` become the empty string. -/
def jsJoinStr : JValue → String
  | .null => ""
  | .undefined => ""
  | v => jsTemplate v

/-! ### Byte-level primitives

Bytes are natural numbers below 256; 32-bit words are naturals reduced
modulo `2 ^ 32`.  These model the Node `crypto` and `Buffer` primitives the
handlers call. -/

/-- UTF-8 encoding of one character. -/
def charUtf8 (c : Char) : List Nat :=
  let n := c.toNat
  if n < 128 then [n]
  else if n < 2048 then [192 + n / 64, 128 + n % 64]
  else if n < 65536 then [224 + n / 4096, 128 + n / 64 % 64, 128 + n % 64]
  else [240 + n / 262144, 128 + n / 4096 % 64, 128 + n / 64 % 64, 128 + n % 64]

/-- UTF-8 bytes of a string (as `Buffer.from` / `hmac.update` see it). -/
def utf8Bytes (s : String) : List Nat :=
  s.toList.foldr (fun c acc => charUtf8 c ++ acc) []

/-- The base64 alphabet. -/
def base64Alphabet : List Char :=
  "ABCDEFGHIJKLMNOPQRSTUVWXYZabcdefghijklmnopqrstuvwxyz0123456789+/".toList

/-- One base64 digit. -/
def b64Char (n : Nat) : Char := base64Alphabet.getD n 'A'

/-- Base64 encoding of a byte list, as `Buffer.toString('base64')`. -/
def base64Encode : List Nat → String
  | [] => ""
  | [a] => String.mk [b64Char (a / 4), b64Char (a % 4 * 16), '=', '=']
  | [a, b] => String.mk [b64Char (a / 4), b64Char (a % 4 * 16 + b / 16), b64Char (b % 16 * 4), '=']
  | a :: b :: c :: rest =>
      String.mk [b64Char (a / 4), b64Char (a % 4 * 16 + b / 16),
                 b64Char (b % 16 * 4 + c / 64), b64Char (c % 64)]
        ++ base64Encode rest

/-- Modulus for 32-bit words. -/
def w32 : Nat := 4294967296

/-- Bitwise complement within 32 bits. -/
def not32 (x : Nat) : Nat := x ^^^ 4294967295

/-- Right-rotation of a 32-bit word. -/
def rotr32 (n x : Nat) : Nat := (x >>> n) ||| (x <<< (32 - n) % w32)

/-- SHA-256 sigma functions. -/
def bigSigma0 (x : Nat) : Nat := rotr32 2 x ^^^ rotr32 13 x ^^^ rotr32 22 x

/-- SHA-256 sigma functions. -/
def bigSigma1 (x : Nat) : Nat := rotr32 6 x ^^^ rotr32 11 x ^^^ rotr32 25 x

/-- SHA-256 sigma functions. -/
def smallSigma0 (x : Nat) : Nat := rotr32 7 x ^^^ rotr32 18 x ^^^ (x >>> 3)

/-- SHA-256 sigma functions. -/
def smallSigma1 (x : Nat) : Nat := rotr32 17 x ^^^ rotr32 19 x ^^^ (x >>> 10)

/-- SHA-256 choice function. -/
def ch (x y z : Nat) : Nat := (x &&& y) ^^^ (not32 x &&& z)

/-- SHA-256 majority function. -/
def maj (x y z : Nat) : Nat := (x &&& y) ^^^ (x &&& z) ^^^ (y &&& z)

/-- The SHA-256 round constants. -/
def sha256K : List Nat :=
  [1116352408, 1899447441, 3049323471, 3921009573, 961987163,
   1508970993, 2453635748, 2870763221, 3624381080, 310598401,
   607225278, 1426881987, 1925078388, 2162078206, 2614888103,
   3248222580, 3835390401, 4022224774, 264347078, 604807628,
   770255983, 1249150122, 1555081692, 1996064986, 2554220882,
   2821834349, 2952996808, 3210313671, 3336571891, 3584528711,
   113926993, 338241895, 666307205, 773529912, 1294757372,
   1396182291, 1695183700, 1986661051, 2177026350, 2456956037,
   2730485921, 2820302411, 3259730800, 3345764771, 3516065817,
   3600352804, 4094571909, 275423344, 430227734, 506948616,
   659060556, 883997877, 958139571, 1322822218, 1537002063,
   1747873779, 1955562222, 2024104815, 2227730452, 2361852424,
   2428436474, 2756734187, 3204031479, 3329325298]

/-- The eight SHA-256 chaining words. -/
structure Hash8 where
  v0 : Nat
  v1 : Nat
  v2 : Nat
  v3 : Nat
  v4 : Nat
  v5 : Nat
  v6 : Nat
  v7 : Nat

/-- The initial SHA-256 hash state. -/
def sha256Init : Hash8 :=
  ⟨1779033703, 3144134277, 1013904242, 2773480762,
   1359893119, 2600822924, 528734635, 1541459225⟩

/-- Working registers of the SHA-256 compression loop. -/
structure Regs where
  a : Nat
  b : Nat
  c : Nat
  d : Nat
  e : Nat
  f : Nat
  g : Nat
  h : Nat

/-- One SHA-256 compression round; `kw` is the pair of round constant and
schedule word. -/
def sha256Round (r : Regs) (kw : Nat × Nat) : Regs :=
  let t1 := (r.h + bigSigma1 r.e + ch r.e r.f r.g + kw.1 + kw.2) % w32
  let t2 := (bigSigma0 r.a + maj r.a r.b r.c) % w32
  ⟨(t1 + t2) % w32, r.a, r.b, r.c, (r.d + t1) % w32, r.e, r.f, r.g⟩

/-- Extend the message schedule by `n` further words; `window` holds the
previous 16 words, oldest first. -/
def scheduleExtend : Nat → List Nat → List Nat
  | 0, _ => []
  | n + 1, window =>
      let w := (smallSigma1 (window.getD 14 0) + window.getD 9 0 +
                smallSigma0 (window.getD 1 0) + window.getD 0 0) % w32
      w :: scheduleExtend n (window.drop 1 ++ [w])

/-- SHA-256 compression of one 16-word chunk into the chaining state. -/
def sha256Compress (hs : Hash8) (chunk : List Nat) : Hash8 :=
  let ws := chunk ++ scheduleExtend 48 chunk
  let r0 : Regs := ⟨hs.v0, hs.v1, hs.v2, hs.v3, hs.v4, hs.v5, hs.v6, hs.v7⟩
  let r := (sha256K.zip ws).foldl sha256Round r0
  ⟨(hs.v0 + r.a) % w32, (hs.v1 + r.b) % w32, (hs.v2 + r.c) % w32, (hs.v3 + r.d) % w32,
   (hs.v4 + r.e) % w32, (hs.v5 + r.f) % w32, (hs.v6 + r.g) % w32, (hs.v7 + r.h) % w32⟩

/-- Group big-endian bytes into 32-bit words. -/
def bytesToWords : List Nat → List Nat
  | a :: b :: c :: d :: rest => (a * 16777216 + b * 65536 + c * 256 + d) :: bytesToWords rest
  | _ => []

/-- Fold the compression function over successive 16-word chunks, with fuel
bounding the number of chunks. -/
def sha256Chunks : Nat → Hash8 → List Nat → Hash8
  | 0, hs, _ => hs
  | _ + 1, hs, [] => hs
  | fuel + 1, hs, ws => sha256Chunks fuel (sha256Compress hs (ws.take 16)) (ws.drop 16)

/-- Big-endian byte rendering of a value in a fixed width. -/
def natToBytesBE : Nat → Nat → List Nat
  | 0, _ => []
  | k + 1, n => natToBytesBE k (n / 256) ++ [n % 256]

/-- SHA-256 padding: `0x80`, zeros to 56 mod 64, then the 64-bit bit length. -/
def sha256Pad (msg : List Nat) : List Nat :=
  let len := msg.length
  msg ++ 128 :: List.replicate ((120 - (len + 1) % 64) % 64) 0 ++ natToBytesBE 8 (len * 8)

/-- The 32-byte SHA-256 digest of a byte message. -/
def sha256Bytes (msg : List Nat) : List Nat :=
  let ws := bytesToWords (sha256Pad msg)
  let hs := sha256Chunks ws.length sha256Init ws
  natToBytesBE 4 hs.v0 ++ natToBytesBE 4 hs.v1 ++ natToBytesBE 4 hs.v2 ++ natToBytesBE 4 hs.v3 ++
  natToBytesBE 4 hs.v4 ++ natToBytesBE 4 hs.v5 ++ natToBytesBE 4 hs.v6 ++ natToBytesBE 4 hs.v7

/-- HMAC-SHA256 over byte lists (RFC 2104 with a 64-byte block). -/
def hmacSha256Bytes (key msg : List Nat) : List Nat :=
  let k0 := if key.length > 64 then sha256Bytes key else key
  let kpad := k0 ++ List.replicate (64 - k0.length) 0
  sha256Bytes ((kpad.map fun b => b ^^^ 92) ++ sha256Bytes ((kpad.map fun b => b ^^^ 54) ++ msg))

/-- Lowercase hex digit. -/
def hexDigit (n : Nat) : Char := Char.ofNat (if n < 10 then 48 + n else 87 + n)

/-- Lowercase hex characters of a byte list, two per byte. -/
def bytesToHexChars : List Nat → List Char
  | [] => []
  | b :: bs => hexDigit (b / 16 % 16) :: hexDigit (b % 16) :: bytesToHexChars bs

/-- Model of `crypto.createHmac('sha256', key).update(msg).digest('hex')`:
the lowercase-hex HMAC-SHA256 of `msg` under `key`. -/
def hmacSha256Hex (key msg : String) : String :=
  String.mk (bytesToHexChars (hmacSha256Bytes (utf8Bytes key) (utf8Bytes msg)))

/-! ### Configuration, responses and outbound calls -/

/-- The environment-derived credential store loaded at module top level
(`RAZORPAY_KEY_ID`, ..., with `|| ''` defaults applied, so absent variables
are the empty string; `PAYPAL_MODE` is kept raw). -/
structure Config where
  razorpayKeyId : String
  razorpayKeySecret : String
  stripeSecret : String
  paypalClient : String
  paypalSecret : String
  paypalMode : Option String

/-- The PayPal base URL: live exactly when `PAYPAL_MODE === 'live'`. -/
def paypalApi (cfg : Config) : String :=
  if cfg.paypalMode = some "live" then "https://api-m.paypal.com"
  else "https://api-m.sandbox.paypal.com"

/-- An HTTP response as produced by `res.status(...).json(...)`
(`res.json` alone is status 200). -/
structure HttpResponse where
  status : Nat
  body : JValue

/-- An outbound provider call made by a handler, carrying the request data
the handler puts on the wire. -/
inductive OutboundCall where
  | razorpayOrderCreate (amountPaise : ℤ) (currency : JValue) (receipt : String) (paymentCapture : Nat)
  | stripeSessionCreate (currency : String) (productName : String) (unitAmount : ℤ)
      (quantity : Nat) (successUrl : String) (cancelUrl : String) (metadataBooking : JValue)
  | paypalTokenExchange (url : String) (basicAuth : String)
  | paypalOrderCreate (url : String) (bearer : String) (currencyCode : JValue) (value : String)
  | paypalCapture (url : String) (bearer : String)

/-- Provider behaviour: for each outbound call, either a successful
response payload or a thrown transport/HTTP error carrying
`err.response.data`. -/
def Oracle : Type := OutboundCall → Except JValue JValue

/-- Response body for a rejected amount on the Razorpay and Stripe create
handlers. -/
def invalidAmountBody : JValue :=
  .obj [("error", .str "Invalid amount. Send amount in rupees (number).")]

/-- Response body returned when the razor payload is incomplete. -/
def missingRazorBody : JValue :=
  .obj [("success", .bool false), ("error", .str "Missing razor payload")]

/-- Response body returned when the computed signature differs from the
received one. -/
def signatureMismatchBody : JValue :=
  .obj [("success", .bool false), ("error", .str "signature_mismatch")]

/-! ### Handlers -/

/-- The `/health` route: `(req, res) => res.json({ ok: true })`.  The
configuration argument records that the response does not depend on it. -/
def healthHandler (_cfg : Config) : HttpResponse :=
  ⟨200, .obj [("ok", .bool true)]⟩

/-- Strict equality `generated === received` where the left side is a
string: true exactly for an identical string on the right. -/
def jsStrictEqStr (g : String) : JValue → Bool
  | .str s => g == s
  | _ => false

/-- The `verifyRazorpayPayment` handler: checks presence of the razor
payload fields, recomputes the HMAC of `orderId|paymentId` under the
Razorpay key secret, and compares it with the received signature. -/
def verifyRazorpayPayment (cfg : Config) (body : JValue) : HttpResponse :=
  let razor := jsGetD body "razor"
  if !truthy razor || !truthy (jsGetD razor "razorpay_payment_id")
      || !truthy (jsGetD razor "razorpay_order_id")
      || !truthy (jsGetD razor "razorpay_signature") then
    ⟨400, missingRazorBody⟩
  else
    let generated := hmacSha256Hex cfg.razorpayKeySecret
      (jsTemplate (jsGetD razor "razorpay_order_id") ++ "|"
        ++ jsTemplate (jsGetD razor "razorpay_payment_id"))
    if jsStrictEqStr generated (jsGetD razor "razorpay_signature") then
      ⟨200, .obj [("success", .bool true)]⟩
    else
      ⟨400, signatureMismatchBody⟩

/-- The `createRazorpayOrder` handler; `now` stands for `Date.now()` in the
generated receipt.  The provider-thrown error value models
`err?.message || err` in the catch clause. -/
def createRazorpayOrder (cfg : Config) (oracle : Oracle) (now : Nat) (body : JValue) :
    HttpResponse × List OutboundCall :=
  let amount := jsGetD body "amount"
  if invalidAmount amount then
    (⟨400, invalidAmountBody⟩, [])
  else
    let amountPaise := mathRound ((numCoerce amount).getD 0 * 100)
    let currency := jsGetDefault body "currency" (.str "INR")
    let call := OutboundCall.razorpayOrderCreate amountPaise currency
      ("booking_" ++ toString now) 1
    (match oracle call with
     | .ok order => ⟨200, order⟩
     | .error e =>
         ⟨500, .obj [("error", .str "Razorpay order creation failed"), ("details", e)]⟩,
     [call])

/-- Left-to-right collection of the `name` members of the service array
(`booking.services.map(s => s.name)`), stopping at the first element whose
member access throws. -/
def namesOf : List JValue → Except String (List JValue)
  | [] => .ok []
  | v :: vs =>
      match jsGet v "name" with
      | .error e => .error e
      | .ok n =>
          match namesOf vs with
          | .error e => .error e
          | .ok rest => .ok (n :: rest)

/-- The Stripe product name: `Booking: ` followed by the joined service
names when `booking.services` is an array, else `booking.name || 'Customer'`
coerced to a string.  Erroring models the `TypeError` thrown by member
access on a nullish base. -/
def stripeProductName (booking : JValue) : Except String String :=
  match jsGet booking "services" with
  | .error e => .error e
  | .ok (.arr l) =>
      match namesOf l with
      | .error e => .error e
      | .ok names => .ok ("Booking: " ++ String.intercalate ", " (names.map jsJoinStr))
  | .ok _ =>
      match jsGet booking "name" with
      | .error e => .error e
      | .ok n => .ok ("Booking: " ++ (if truthy n then jsTemplate n else "Customer"))

/-- ASCII lowercase of one character, as `String.prototype.toLowerCase`
maps the characters appearing in currency codes. -/
def jsCharLower (c : Char) : Char :=
  if 65 ≤ c.toNat ∧ c.toNat ≤ 90 then Char.ofNat (c.toNat + 32) else c

/-- Model of `currency.toLowerCase()`. -/
def jsToLowerCase (s : String) : String := String.mk (s.toList.map jsCharLower)

/-- Response body for a failed Stripe session creation. -/
def stripeFailBody (details : JValue) : JValue :=
  .obj [("error", .str "Stripe session creation failed"), ("details", details)]

/-- The `createStripeSession` handler; `origin` is the request's `Origin`
header.  The `booking = {}` destructuring default applies only to an
`undefined` booking field; a non-string currency makes
`currency.toLowerCase()` throw into the catch clause. -/
def createStripeSession (cfg : Config) (oracle : Oracle) (origin : Option String) (body : JValue) :
    HttpResponse × List OutboundCall :=
  let booking := jsGetDefault body "booking" (.obj [])
  let amount := jsGetD body "amount"
  if invalidAmount amount then
    (⟨400, invalidAmountBody⟩, [])
  else
    let unitAmount := mathRound ((numCoerce amount).getD 0 * 100)
    let successUrl := origin.getD "http://localhost:3000" ++ "/success.html"
    let cancelUrl := origin.getD "http://localhost:3000" ++ "/failure.html"
    match jsGetDefault body "currency" (.str "INR") with
    | .str c =>
        match stripeProductName booking with
        | .ok nm =>
            let call := OutboundCall.stripeSessionCreate (jsToLowerCase c) nm unitAmount 1
              successUrl cancelUrl booking
            (match oracle call with
             | .ok session =>
                 match jsGet session "id" with
                 | .ok v => ⟨200, .obj [("id", v)]⟩
                 | .error m => ⟨500, stripeFailBody (.str m)⟩
             | .error e => ⟨500, stripeFailBody e⟩,
             [call])
        | .error m => (⟨500, stripeFailBody (.str m)⟩, [])
    | _ => (⟨500, stripeFailBody (.str "TypeError")⟩, [])

/-- Failure modes of a PayPal handler: the local credentials guard, a
provider/transport error carrying `err.response.data`, or a locally thrown
`TypeError`. -/
inductive PaypalErr where
  | credsMissing
  | provider (e : JValue)
  | thrown (msg : String)

/-- The `details` field produced by the PayPal catch clauses
(`err?.response?.data || err?.message || err`). -/
def paypalErrDetails : PaypalErr → JValue
  | .credsMissing => .str "PayPal credentials missing"
  | .provider e => if truthy e then e else .str "Request failed"
  | .thrown m => .str m

/-- The `getPaypalToken` helper: throws when either credential is absent,
otherwise performs the OAuth client-credentials exchange and extracts
`access_token` (string-coerced where it is interpolated into the bearer
header). -/
def getPaypalToken (cfg : Config) (oracle : Oracle) :
    Except PaypalErr String × List OutboundCall :=
  if cfg.paypalClient == "" || cfg.paypalSecret == "" then
    (.error .credsMissing, [])
  else
    let call := OutboundCall.paypalTokenExchange (paypalApi cfg ++ "/v1/oauth2/token")
      (base64Encode (utf8Bytes (cfg.paypalClient ++ ":" ++ cfg.paypalSecret)))
    match oracle call with
    | .error e => (.error (.provider e), [call])
    | .ok data =>
        match jsGet data "access_token" with
        | .ok tok => (.ok (jsTemplate tok), [call])
        | .error m => (.error (.thrown m), [call])

/-- The `createPaypalOrder` handler: amount guard, fresh token exchange,
then the v2 order-create call with the raw amount string-coerced into the
purchase unit's `value`. -/
def createPaypalOrder (cfg : Config) (oracle : Oracle) (body : JValue) :
    HttpResponse × List OutboundCall :=
  let amount := jsGetD body "amount"
  if invalidAmount amount then
    (⟨400, .obj [("error", .str "Invalid amount")]⟩, [])
  else
    match getPaypalToken cfg oracle with
    | (.error e, calls) =>
        (⟨500, .obj [("error", .str "PayPal create order failed"),
                     ("details", paypalErrDetails e)]⟩, calls)
    | (.ok token, calls) =>
        let currency := jsGetDefault body "currency" (.str "INR")
        let call := OutboundCall.paypalOrderCreate (paypalApi cfg ++ "/v2/checkout/orders")
          token currency (jsTemplate amount)
        (match oracle call with
         | .ok data =>
             match jsGet data "id" with
             | .ok v => ⟨200, .obj [("orderId", v), ("order", data)]⟩
             | .error m =>
                 ⟨500, .obj [("error", .str "PayPal create order failed"),
                             ("details", paypalErrDetails (.thrown m))]⟩
         | .error e =>
             ⟨500, .obj [("error", .str "PayPal create order failed"),
                         ("details", paypalErrDetails (.provider e))]⟩,
         calls ++ [call])

/-- The `capturePaypalPayment` handler: orderId guard, fresh token
exchange, then the v2 capture call for that order id. -/
def capturePaypalPayment (cfg : Config) (oracle : Oracle) (body : JValue) :
    HttpResponse × List OutboundCall :=
  let orderId := jsGetD body "orderId"
  if !truthy orderId then
    (⟨400, .obj [("success", .bool false), ("error", .str "Missing orderId")]⟩, [])
  else
    match getPaypalToken cfg oracle with
    | (.error e, calls) =>
        (⟨500, .obj [("success", .bool false), ("error", .str "PayPal capture failed"),
                     ("details", paypalErrDetails e)]⟩, calls)
    | (.ok token, calls) =>
        let call := OutboundCall.paypalCapture
          (paypalApi cfg ++ "/v2/checkout/orders/" ++ jsTemplate orderId ++ "/capture") token
        (match oracle call with
         | .ok data => ⟨200, .obj [("success", .bool true), ("capture", data)]⟩
         | .error e =>
             ⟨500, .obj [("success", .bool false), ("error", .str "PayPal capture failed"),
                         ("details", paypalErrDetails (.provider e))]⟩,
         calls ++ [call])

/-- Projection of the unit amount a Stripe session-create call puts on the
wire. -/
def stripeUnitAmount : OutboundCall → Option ℤ
  | .stripeSessionCreate _ _ ua _ _ _ _ => some ua
  | _ => none

/-- Projection of the product name a Stripe session-create call puts on the
wire. -/
def sessionName : OutboundCall → Option String
  | .stripeSessionCreate _ nm _ _ _ _ _ => some nm
  | _ => none

/-! ### Concrete fixtures used to instantiate the theorems -/

/-- A concrete credential store with Razorpay secret `k`. -/
def cfgW : Config := ⟨"rzp_id", "k", "sk_test", "client", "secret", none⟩

/-- A concrete credential store whose PayPal client id is absent. -/
def cfgNoPaypal : Config := ⟨"rzp_id", "k", "sk_test", "", "secret", none⟩

/-- A concrete provider oracle: token exchanges yield token `T`, other
calls an object with id `ord_1`. -/
def oracleW : Oracle := fun c =>
  match c with
  | .paypalTokenExchange _ _ => .ok (.obj [("access_token", .str "T")])
  | _ => .ok (.obj [("id", .str "ord_1")])

/-- A razor payload correctly signed under secret `k`. -/
def razorSigned : JValue :=
  .obj [("razorpay_payment_id", .str "pay_1"), ("razorpay_order_id", .str "order_1"),
        ("razorpay_signature", .str (hmacSha256Hex "k" ("order_1" ++ "|" ++ "pay_1")))]

/-- A razor payload whose signature is the correct one with its hex digits
uppercased. -/
def razorUpper : JValue :=
  .obj [("razorpay_payment_id", .str "pay_1"), ("razorpay_order_id", .str "order_1"),
        ("razorpay_signature",
         .str "ED2F1A96A4D95F5F9ECC1725DB65D7C58AC1B4E9DD5167D097F998AF3DB8BD3A")]

/-! ### Supporting lemmas -/

theorem truthy_str (s : String) : truthy (.str s) = (s != "") := rfl

theorem bytesToHexChars_length (l : List Nat) :
    (bytesToHexChars l).length = 2 * l.length := by
  induction l with
  | nil => rfl
  | cons b bs ih =>
      simp only [bytesToHexChars, List.length_cons, ih]
      ring

theorem natToBytesBE_length (k : Nat) : ∀ n, (natToBytesBE k n).length = k := by
  induction k with
  | zero => intro n; rfl
  | succ k ih =>
      intro n
      simp [natToBytesBE, ih]

theorem sha256Bytes_length (m : List Nat) : (sha256Bytes m).length = 32 := by
  simp [sha256Bytes, natToBytesBE_length]

/-- The hex digest the verifier computes always has 64 characters. -/
theorem hmacSha256Hex_length (k m : String) : (hmacSha256Hex k m).length = 64 := by
  show (bytesToHexChars (hmacSha256Bytes (utf8Bytes k) (utf8Bytes m))).length = 64
  rw [bytesToHexChars_length]
  simp [hmacSha256Bytes, sha256Bytes_length]

theorem hmacSha256Hex_ne_empty (k m : String) : hmacSha256Hex k m ≠ "" := by
  intro h
  have h64 := hmacSha256Hex_length k m
  rw [h] at h64
  simp at h64

theorem jsTemplate_str (s : String) : jsTemplate (.str s) = s := rfl

/-! ### Claim theorems -/

/-- C9: for every GET request to `/health`, regardless of which credentials
are configured (including none), the response is HTTP 200 with body
`ok = true`. -/
theorem health_always_ok (cfg : Config) :
    healthHandler cfg = ⟨200, .obj [("ok", .bool true)]⟩ := rfl

/-- C10: the outcome of the verify-payment operation depends only on the
razor payload and the stored secret: two requests with identical razor
fields but arbitrary differing booking metadata receive identical status
and body. -/
theorem verify_depends_only_on_razor (cfg : Config) (b1 b2 : JValue)
    (h : jsGetD b1 "razor" = jsGetD b2 "razor") :
    verifyRazorpayPayment cfg b1 = verifyRazorpayPayment cfg b2 := by
  unfold verifyRazorpayPayment
  rw [h]

/-- Witness for C10 at two concrete bodies sharing a razor payload but
holding different bookings. -/
theorem verify_depends_only_on_razor_witness :
    verifyRazorpayPayment cfgW (.obj [("razor", razorSigned), ("booking", .str "alice")])
      = verifyRazorpayPayment cfgW (.obj [("razor", razorSigned), ("booking", .num 7)]) :=
  verify_depends_only_on_razor cfgW _ _ rfl

/-- C4: a verification request whose razor payload is missing any of the
three fields is answered with the 400 `Missing razor payload` validation
body, which differs from the computed-mismatch body. -/
theorem verify_missing_fields (cfg : Config) (body : JValue)
    (h : truthy (jsGetD body "razor") = false
       ∨ truthy (jsGetD (jsGetD body "razor") "razorpay_payment_id") = false
       ∨ truthy (jsGetD (jsGetD body "razor") "razorpay_order_id") = false
       ∨ truthy (jsGetD (jsGetD body "razor") "razorpay_signature") = false) :
    verifyRazorpayPayment cfg body = ⟨400, missingRazorBody⟩
      ∧ missingRazorBody ≠ signatureMismatchBody := by
  constructor
  · unfold verifyRazorpayPayment
    rcases h with h | h | h | h <;> simp [h]
  · simp [missingRazorBody, signatureMismatchBody]

/-- Witness for C4 at a concrete request whose razor payload lacks the
signature field. -/
theorem verify_missing_fields_witness :
    verifyRazorpayPayment cfgW
        (.obj [("razor", .obj [("razorpay_payment_id", .str "pay_1"),
                               ("razorpay_order_id", .str "order_1")])])
      = ⟨400, missingRazorBody⟩ ∧ missingRazorBody ≠ signatureMismatchBody :=
  verify_missing_fields cfgW _ (by right; right; right; rfl)

/-- C6: a capture request whose `orderId` is missing or empty is answered
with the 400 `Missing orderId` validation body, and no outbound call (in
particular no token exchange) is made. -/
theorem capture_missing_orderId (cfg : Config) (oracle : Oracle) (body : JValue)
    (h : jsGetD body "orderId" = .undefined ∨ jsGetD body "orderId" = .str "") :
    capturePaypalPayment cfg oracle body
      = (⟨400, .obj [("success", .bool false), ("error", .str "Missing orderId")]⟩, []) := by
  unfold capturePaypalPayment
  rcases h with h | h <;> simp [h, truthy]

/-- Witness for C6 at a concrete capture request without an `orderId`. -/
theorem capture_missing_orderId_witness :
    capturePaypalPayment cfgW oracleW (.obj [("amount", .num 5)])
      = (⟨400, .obj [("success", .bool false), ("error", .str "Missing orderId")]⟩, []) :=
  capture_missing_orderId cfgW oracleW _ (Or.inl rfl)

/-- C1: for non-empty orderId, paymentId and secret, a verification request
whose signature is exactly the lowercase-hex HMAC-SHA256 of
`orderId|paymentId` under the stored secret is answered 200 with
`success = true`. -/
theorem verify_correct_signature (cfg : Config) (body razor : JValue) (oid pid sig : String)
    (hr : jsGetD body "razor" = razor)
    (htr : truthy razor = true)
    (ho : jsGetD razor "razorpay_order_id" = .str oid)
    (hp : jsGetD razor "razorpay_payment_id" = .str pid)
    (hs : jsGetD razor "razorpay_signature" = .str sig)
    (hoid : oid ≠ "") (hpid : pid ≠ "") (hsec : cfg.razorpayKeySecret ≠ "")
    (hsig : sig = hmacSha256Hex cfg.razorpayKeySecret (oid ++ "|" ++ pid)) :
    verifyRazorpayPayment cfg body = ⟨200, .obj [("success", .bool true)]⟩ := by
  subst hsig
  have hp' : (pid != "") = true := by simp [hpid]
  have ho' : (oid != "") = true := by simp [hoid]
  have hsg' : (hmacSha256Hex cfg.razorpayKeySecret (oid ++ "|" ++ pid) != "") = true := by
    simp [hmacSha256Hex_ne_empty]
  simp [verifyRazorpayPayment, hr, ho, hp, hs, jsTemplate_str, truthy_str, jsStrictEqStr,
        htr, hp', ho', hsg']

/-- Witness for C1 at a concrete correctly-signed request under secret `k`. -/
theorem verify_correct_signature_witness :
    verifyRazorpayPayment cfgW (.obj [("razor", razorSigned)])
      = ⟨200, .obj [("success", .bool true)]⟩ :=
  verify_correct_signature cfgW _ razorSigned "order_1" "pay_1"
    (hmacSha256Hex "k" ("order_1" ++ "|" ++ "pay_1"))
    rfl rfl rfl rfl rfl (by decide) (by decide) (by decide) rfl

/-- C3: a verification request with all three razor fields present whose
signature differs anywhere (including only in hex letter case) from the
computed HMAC is answered 400 with the `signature_mismatch` body, not an
exception or a 500. -/
theorem verify_signature_mismatch (cfg : Config) (body razor : JValue) (oid pid sig : String)
    (hr : jsGetD body "razor" = razor)
    (htr : truthy razor = true)
    (ho : jsGetD razor "razorpay_order_id" = .str oid)
    (hp : jsGetD razor "razorpay_payment_id" = .str pid)
    (hs : jsGetD razor "razorpay_signature" = .str sig)
    (hoid : oid ≠ "") (hpid : pid ≠ "") (hsigp : sig ≠ "")
    (hne : sig ≠ hmacSha256Hex cfg.razorpayKeySecret (oid ++ "|" ++ pid)) :
    verifyRazorpayPayment cfg body = ⟨400, signatureMismatchBody⟩ := by
  have hp' : (pid != "") = true := by simp [hpid]
  have ho' : (oid != "") = true := by simp [hoid]
  have hsg' : (sig != "") = true := by simp [hsigp]
  have hne' : (hmacSha256Hex cfg.razorpayKeySecret (oid ++ "|" ++ pid) == sig) = false := by
    simp [Ne.symm hne]
  simp [verifyRazorpayPayment, hr, ho, hp, hs, jsTemplate_str, truthy_str, jsStrictEqStr,
        htr, hp', ho', hsg', hne']

/-- Witness for C3 at a concrete request whose signature is the computed
HMAC with its hex digits uppercased. -/
theorem verify_signature_mismatch_witness :
    verifyRazorpayPayment cfgW (.obj [("razor", razorUpper)])
      = ⟨400, signatureMismatchBody⟩ :=
  verify_signature_mismatch cfgW _ razorUpper "order_1" "pay_1"
    "ED2F1A96A4D95F5F9ECC1725DB65D7C58AC1B4E9DD5167D097F998AF3DB8BD3A"
    rfl rfl rfl rfl rfl (by decide) (by decide) (by decide) (by decide)

theorem getPaypalToken_credsMissing (cfg : Config) (oracle : Oracle)
    (h : cfg.paypalClient = "" ∨ cfg.paypalSecret = "") :
    getPaypalToken cfg oracle = (.error .credsMissing, []) := by
  rcases h with h | h <;> simp [getPaypalToken, h]

theorem invalidAmount_num_pos (q : ℚ) (h : 0 < q) : invalidAmount (.num q) = false := by
  simp [invalidAmount, truthy, numCoerce, h.ne', not_le.mpr h]

/-- C7: a wallet-gateway create or capture attempted with an absent client
id or secret is answered by a structured 500 whose details name the missing
credentials, and no outbound call (token exchange included) is made. -/
theorem paypal_creds_missing (cfg : Config) (oracle : Oracle) (body bodyC : JValue) (q : ℚ)
    (h : cfg.paypalClient = "" ∨ cfg.paypalSecret = "")
    (ha : jsGetD body "amount" = .num q) (hq : 0 < q)
    (horder : truthy (jsGetD bodyC "orderId") = true) :
    createPaypalOrder cfg oracle body
      = (⟨500, .obj [("error", .str "PayPal create order failed"),
                     ("details", .str "PayPal credentials missing")]⟩, [])
    ∧ capturePaypalPayment cfg oracle bodyC
      = (⟨500, .obj [("success", .bool false), ("error", .str "PayPal capture failed"),
                     ("details", .str "PayPal credentials missing")]⟩, []) := by
  have htok := getPaypalToken_credsMissing cfg oracle h
  constructor
  · have hA : invalidAmount (jsGetD body "amount") = false := by
      rw [ha]; exact invalidAmount_num_pos q hq
    simp [createPaypalOrder, hA, htok, paypalErrDetails]
  · simp [capturePaypalPayment, horder, htok, paypalErrDetails]

/-- Witness for C7 at concrete create and capture requests with an absent
PayPal client id. -/
theorem paypal_creds_missing_witness :
    createPaypalOrder cfgNoPaypal oracleW (.obj [("amount", .num 5)])
      = (⟨500, .obj [("error", .str "PayPal create order failed"),
                     ("details", .str "PayPal credentials missing")]⟩, [])
    ∧ capturePaypalPayment cfgNoPaypal oracleW (.obj [("orderId", .str "ord_1")])
      = (⟨500, .obj [("success", .bool false), ("error", .str "PayPal capture failed"),
                     ("details", .str "PayPal credentials missing")]⟩, []) :=
  paypal_creds_missing cfgNoPaypal oracleW _ _ 5 (Or.inl rfl) rfl (by norm_num) (by decide)

theorem invalidAmount_of (v : JValue)
    (h : v = .undefined ∨ numCoerce v = none ∨ ∃ q, numCoerce v = some q ∧ q ≤ 0) :
    invalidAmount v = true := by
  rcases h with h | h | ⟨q, hq, hle⟩
  · subst h; rfl
  · simp [invalidAmount, h]
  · simp [invalidAmount, hq, hle]

/-- C2: a create request whose amount is missing, `NaN` under numeric
coercion, or at most zero is answered 400 by each of the three create
handlers, with an empty outbound-call trace (no provider call, no token
exchange). -/
theorem create_invalid_amount (cfg : Config) (oracle : Oracle) (now : Nat)
    (origin : Option String) (body : JValue)
    (h : jsGetD body "amount" = .undefined
       ∨ numCoerce (jsGetD body "amount") = none
       ∨ ∃ q, numCoerce (jsGetD body "amount") = some q ∧ q ≤ 0) :
    createRazorpayOrder cfg oracle now body = (⟨400, invalidAmountBody⟩, [])
    ∧ createStripeSession cfg oracle origin body = (⟨400, invalidAmountBody⟩, [])
    ∧ createPaypalOrder cfg oracle body
        = (⟨400, .obj [("error", .str "Invalid amount")]⟩, []) := by
  have hA := invalidAmount_of _ h
  exact ⟨by simp [createRazorpayOrder, hA],
         by simp [createStripeSession, hA],
         by simp [createPaypalOrder, hA]⟩

/-- Witness for C2 at a concrete request with a negative amount. -/
theorem create_invalid_amount_witness :
    createRazorpayOrder cfgW oracleW 7 (.obj [("amount", .num (-5))])
      = (⟨400, invalidAmountBody⟩, [])
    ∧ createStripeSession cfgW oracleW none (.obj [("amount", .num (-5))])
      = (⟨400, invalidAmountBody⟩, [])
    ∧ createPaypalOrder cfgW oracleW (.obj [("amount", .num (-5))])
        = (⟨400, .obj [("error", .str "Invalid amount")]⟩, []) :=
  create_invalid_amount cfgW oracleW 7 none _
    (Or.inr (Or.inr ⟨-5, rfl, by norm_num⟩))

theorem jsTemplate_num (q : ℚ) : jsTemplate (.num q) = ratDecString q := rfl

theorem ratFloor_eq_intFloor (q : ℚ) : q.floor = ⌊q⌋ :=
  (Rat.floor_def' q).trans Rat.floor_def.symm

/-- The embedded `Math.round` is floor of the argument plus one half. -/
theorem mathRound_eq_floor (q : ℚ) : mathRound q = ⌊q + 1/2⌋ := by
  rw [mathRound, Rat.floor_def', Rat.floor_def]

theorem fracDigits_zero (fuel : Nat) : fracDigits fuel 0 = [] := by
  cases fuel <;> simp [fracDigits]

theorem fracDigits_half (fuel : Nat) : fracDigits (fuel + 1) (1/2 : ℚ) = ['5'] := by
  have h5 : Rat.floor (5:ℚ) = 5 := by rw [ratFloor_eq_intFloor]; norm_num
  rw [fracDigits, if_neg (by norm_num)]
  have h10 : (1/2 : ℚ) * 10 = 5 := by norm_num
  simp only [h10, h5]
  norm_num [fracDigits_zero]
  decide

/-- The decimal rendering of the JS number `100.5` is the string `100.5`. -/
theorem ratDecString_100_5 : ratDecString (100.5 : ℚ) = "100.5" := by
  rw [ratDecString, if_neg (by norm_num), ratDecStringNonneg]
  have h1 : (100.5:ℚ).floor = 100 := by rw [ratFloor_eq_intFloor]; norm_num
  have h2 : (100.5:ℚ) - ((100:ℤ):ℚ) = 1/2 := by norm_num
  simp only [h1, h2]
  rw [show (32:Nat) = 31 + 1 from rfl, fracDigits_half]
  rfl

theorem getPaypalToken_ok (cfg : Config) (oracle : Oracle) (tokenData tok : JValue)
    (hcl : cfg.paypalClient ≠ "") (hcs : cfg.paypalSecret ≠ "")
    (htok : oracle (.paypalTokenExchange (paypalApi cfg ++ "/v1/oauth2/token")
        (base64Encode (utf8Bytes (cfg.paypalClient ++ ":" ++ cfg.paypalSecret)))) = .ok tokenData)
    (htd : jsGet tokenData "access_token" = .ok tok) :
    getPaypalToken cfg oracle = (.ok (jsTemplate tok),
      [.paypalTokenExchange (paypalApi cfg ++ "/v1/oauth2/token")
        (base64Encode (utf8Bytes (cfg.paypalClient ++ ":" ++ cfg.paypalSecret)))]) := by
  have h1 : (cfg.paypalClient == "") = false := by simp [hcl]
  have h2 : (cfg.paypalSecret == "") = false := by simp [hcs]
  simp [getPaypalToken, h1, h2, htok, htd]

/-- C5: for a valid positive amount, the Razorpay and Stripe create
operations put `round(amount * 100)` minor units on the wire (round half
up), while the PayPal create operation sends the amount unconverted, as its
plain decimal string, in the purchase unit's value. -/
theorem amount_conversion (cfg : Config) (oracle : Oracle) (now : Nat) (origin : Option String)
    (body tokenData tok : JValue) (q : ℚ) (c₀ nm : String)
    (ha : jsGetD body "amount" = .num q) (hq : 0 < q)
    (hc : jsGetDefault body "currency" (.str "INR") = .str c₀)
    (hpn : stripeProductName (jsGetDefault body "booking" (.obj [])) = .ok nm)
    (hcl : cfg.paypalClient ≠ "") (hcs : cfg.paypalSecret ≠ "")
    (htok : oracle (.paypalTokenExchange (paypalApi cfg ++ "/v1/oauth2/token")
        (base64Encode (utf8Bytes (cfg.paypalClient ++ ":" ++ cfg.paypalSecret)))) = .ok tokenData)
    (htd : jsGet tokenData "access_token" = .ok tok) :
    (createRazorpayOrder cfg oracle now body).2
        = [.razorpayOrderCreate ⌊q * 100 + 1/2⌋ (jsGetDefault body "currency" (.str "INR"))
            ("booking_" ++ toString now) 1]
    ∧ (createStripeSession cfg oracle origin body).2
        = [.stripeSessionCreate (jsToLowerCase c₀) nm ⌊q * 100 + 1/2⌋ 1
            (origin.getD "http://localhost:3000" ++ "/success.html")
            (origin.getD "http://localhost:3000" ++ "/failure.html")
            (jsGetDefault body "booking" (.obj []))]
    ∧ (createPaypalOrder cfg oracle body).2
        = [.paypalTokenExchange (paypalApi cfg ++ "/v1/oauth2/token")
            (base64Encode (utf8Bytes (cfg.paypalClient ++ ":" ++ cfg.paypalSecret))),
           .paypalOrderCreate (paypalApi cfg ++ "/v2/checkout/orders") (jsTemplate tok)
            (jsGetDefault body "currency" (.str "INR")) (ratDecString q)] := by
  refine ⟨?_, ?_, ?_⟩
  · simp [createRazorpayOrder, ha, invalidAmount_num_pos q hq, mathRound_eq_floor, numCoerce]
  · simp [createStripeSession, ha, invalidAmount_num_pos q hq, hc, hpn, mathRound_eq_floor,
          numCoerce]
  · simp [createPaypalOrder, ha, invalidAmount_num_pos q hq,
          getPaypalToken_ok cfg oracle tokenData tok hcl hcs htok htd, jsTemplate_num]

/-- Witness for C5: amount `100.5` becomes `10050` minor units for the two
converting adapters and the string `100.5` for the PayPal adapter. -/
theorem amount_conversion_witness :
    (createRazorpayOrder cfgW oracleW 7 (.obj [("amount", .num 100.5)])).2
        = [.razorpayOrderCreate 10050 (.str "INR") "booking_7" 1]
    ∧ (createStripeSession cfgW oracleW none (.obj [("amount", .num 100.5)])).2
        = [.stripeSessionCreate "inr" "Booking: Customer" 10050 1
            "http://localhost:3000/success.html" "http://localhost:3000/failure.html" (.obj [])]
    ∧ (createPaypalOrder cfgW oracleW (.obj [("amount", .num 100.5)])).2
        = [.paypalTokenExchange "https://api-m.sandbox.paypal.com/v1/oauth2/token"
            "Y2xpZW50OnNlY3JldA==",
           .paypalOrderCreate "https://api-m.sandbox.paypal.com/v2/checkout/orders" "T"
            (.str "INR") "100.5"] := by
  obtain ⟨h1, h2, h3⟩ := amount_conversion cfgW oracleW 7 none
    (.obj [("amount", .num 100.5)]) (.obj [("access_token", .str "T")]) (.str "T")
    100.5 "INR" "Booking: Customer" rfl (by norm_num) rfl rfl
    (by decide) (by decide) rfl rfl
  refine ⟨h1.trans ?_, h2.trans ?_, h3.trans ?_⟩
  · norm_num
    and_intros <;> rfl
  · norm_num
    and_intros <;> rfl
  · rw [ratDecString_100_5]
    rfl

theorem jsGet_ok (v : JValue) (k : String) (h1 : v ≠ .null) (h2 : v ≠ .undefined) :
    jsGet v k = .ok (jsGetD v k) := by
  cases v <;> simp_all [jsGet]

theorem namesOf_ok (l : List JValue) (h : ∀ v ∈ l, v ≠ .null ∧ v ≠ .undefined) :
    namesOf l = .ok (l.map fun v => jsGetD v "name") := by
  induction l with
  | nil => rfl
  | cons x xs ih =>
      obtain ⟨hx1, hx2⟩ := h x (List.mem_cons_self x xs)
      have hxs := ih fun v hv => h v (List.mem_cons_of_mem x hv)
      simp [namesOf, jsGet_ok x "name" hx1 hx2, hxs]

theorem stripeProductName_arr (bf : List (String × JValue)) (l : List JValue)
    (hs : jsGetD (.obj bf) "services" = .arr l)
    (hl : ∀ v ∈ l, v ≠ .null ∧ v ≠ .undefined) :
    stripeProductName (.obj bf)
      = .ok ("Booking: "
          ++ String.intercalate ", " (l.map fun v => jsJoinStr (jsGetD v "name"))) := by
  have h1 : jsGet (.obj bf) "services" = .ok (jsGetD (.obj bf) "services") :=
    jsGet_ok _ _ (fun h => nomatch h) (fun h => nomatch h)
  simp [stripeProductName, h1, hs, namesOf_ok l hl, Function.comp_def]

theorem stripeProductName_nonarr (bf : List (String × JValue))
    (hs : ∀ l, jsGetD (.obj bf) "services" ≠ .arr l) :
    stripeProductName (.obj bf)
      = .ok ("Booking: " ++ (if truthy (jsGetD (.obj bf) "name")
          then jsTemplate (jsGetD (.obj bf) "name") else "Customer")) := by
  have h1 : jsGet (.obj bf) "services" = .ok (jsGetD (.obj bf) "services") :=
    jsGet_ok _ _ (fun h => nomatch h) (fun h => nomatch h)
  have h2 : jsGet (.obj bf) "name" = .ok (jsGetD (.obj bf) "name") :=
    jsGet_ok _ _ (fun h => nomatch h) (fun h => nomatch h)
  cases hv : jsGetD (.obj bf) "services" <;>
    first
    | exact absurd hv (hs _)
    | simp [stripeProductName, h1, h2, hv]

/-- C8: the product name on the wire of a Stripe session-create call is
`Booking: ` followed by the comma-join of the service names when
`booking.services` is an array, else the string-coerced `booking.name` when
it is present (truthy), else the fallback `Customer`. -/
theorem stripe_product_name_cases (cfg : Config) (oracle : Oracle) (origin : Option String)
    (body : JValue) (bf : List (String × JValue)) (q : ℚ) (c₀ : String)
    (hb : jsGetDefault body "booking" (.obj []) = .obj bf)
    (ha : jsGetD body "amount" = .num q) (hq : 0 < q)
    (hc : jsGetDefault body "currency" (.str "INR") = .str c₀) :
    (∀ l, jsGetD (.obj bf) "services" = .arr l →
       (∀ v ∈ l, v ≠ .null ∧ v ≠ .undefined) →
       (createStripeSession cfg oracle origin body).2.map sessionName
         = [some ("Booking: "
             ++ String.intercalate ", " (l.map fun v => jsJoinStr (jsGetD v "name")))])
    ∧ ((∀ l, jsGetD (.obj bf) "services" ≠ .arr l) →
       (createStripeSession cfg oracle origin body).2.map sessionName
         = [some ("Booking: " ++ (if truthy (jsGetD (.obj bf) "name")
             then jsTemplate (jsGetD (.obj bf) "name") else "Customer"))]) := by
  constructor
  · intro l hs hl
    have hpn := stripeProductName_arr bf l hs hl
    simp [createStripeSession, ha, invalidAmount_num_pos q hq, hc, hb, hpn, sessionName]
  · intro hs
    have hpn := stripeProductName_nonarr bf hs
    simp [createStripeSession, ha, invalidAmount_num_pos q hq, hc, hb, hpn, sessionName]

/-- Witness for C8 at a concrete booking with two services named `Cut` and
`Color`. -/
theorem stripe_product_name_cases_witness :
    (createStripeSession cfgW oracleW none
        (.obj [("amount", .num 100.5),
               ("booking", .obj [("services",
                 .arr [.obj [("name", .str "Cut")], .obj [("name", .str "Color")]])])])).2.map
        sessionName
      = [some "Booking: Cut, Color"] := by
  have h := (stripe_product_name_cases cfgW oracleW none
      (.obj [("amount", .num 100.5),
             ("booking", .obj [("services",
               .arr [.obj [("name", .str "Cut")], .obj [("name", .str "Color")]])])])
      [("services", .arr [.obj [("name", .str "Cut")], .obj [("name", .str "Color")]])]
      100.5 "INR" rfl rfl (by norm_num) rfl).1
      [.obj [("name", .str "Cut")], .obj [("name", .str "Color")]] rfl
      (by intro v hv
          simp only [List.mem_cons, List.not_mem_nil, or_false] at hv
          rcases hv with rfl | rfl <;> exact ⟨by simp, by simp⟩)
  exact h.trans rfl

end Makeover


